import Mathlib

/-!
Verification development for the image_generation_square repository.

The repository consists of:
  - an image compositor add_logo_and_text (src/gemini/test.py and src/gemini/api.py,
    both copies identical in logic),
  - a slugify helper,
  - a Gemini adapter with an exponential-backoff retry loop
    (generate_one_prompt in test.py, generate_image in api.py),
  - a batch orchestrator generate_batch (test.py),
  - OpenAI chat and image endpoints (src/openai/api.py, src/chat.py).

The shallow embedding below translates the Python source into executable Lean
definitions.  External collaborators (PIL, the Gemini client, the mimetypes
table, uuid, the HTTP host) are modelled as an explicit environment of total
or partial functions; Python exceptions are modelled with Except.  Python
float arithmetic such as int(h * 0.10) is modelled with exact Nat floor
division h / 10; the claims under study never depend on float rounding.
-/

/-- Python exceptions relevant to this code base.  provider carries whether
the error is an authentication error plus its message; str models str(e). -/
inductive PyErr where
  | valueError
  | attrNoneData
  | attrNoneParts
  | indexError
  | typeError
  | decodeError
  | attrNoAuth
  | provider (auth : Bool) (msg : String)
deriving DecidableEq

/-- Python str(e) for the errors above. -/
def PyErr.str : PyErr → String
  | .valueError => "destination must be non-negative"
  | .attrNoneData => "NoneType object has no attribute data"
  | .attrNoneParts => "NoneType object has no attribute parts"
  | .indexError => "list index out of range"
  | .typeError => "NoneType object is not iterable"
  | .decodeError => "cannot identify image file"
  | .attrNoAuth => "object has no attribute AuthenticationError"
  | .provider _ m => m

/-- Whether an exception is an authentication error (openai.AuthenticationError). -/
def PyErr.isAuth : PyErr → Bool
  | .provider a _ => a
  | _ => false

/-- A font handle; PIL font objects are opaque to this code. -/
abbrev Font := Nat

/-- PIL images, modelled symbolically: a decoded image is a tagged base with a
size, and every drawing operation of the source is recorded structurally, so
two runs of the compositor produce equal values exactly when they perform the
same operations. -/
inductive Img where
  | base (tag w h : Nat)
  | newRGBA (w h r g b a : Nat)
  | convert (mode : String) (i : Img)
  | resize (w h : Nat) (i : Img)
  | composited (dst src : Img) (x y : Int)
  | withText (i : Img) (x y : Int) (text : String) (font : Font) (stroke : Nat)
deriving DecidableEq

/-- img.width in PIL. -/
def Img.width : Img → Nat
  | .base _ w _ => w
  | .newRGBA w _ _ _ _ _ => w
  | .convert _ i => i.width
  | .resize w _ _ => w
  | .composited d _ _ _ => d.width
  | .withText i _ _ _ _ _ => i.width

/-- img.height in PIL. -/
def Img.height : Img → Nat
  | .base _ _ h => h
  | .newRGBA _ h _ _ _ _ => h
  | .convert _ i => i.height
  | .resize _ h _ => h
  | .composited d _ _ _ => d.height
  | .withText i _ _ _ _ _ => i.height

/-- Result of PIL Image.open on a path: the file opens and decodes, the file
is missing (FileNotFoundError), or opening fails some other way. -/
inductive OpenResult where
  | opened (i : Img)
  | notFound
  | fail (e : PyErr)
deriving DecidableEq

/-- The environment of external collaborators: PIL decode and encode, the
file system, font loading, text measurement, the mimetypes table, uuid
generation and the request host. -/
structure Env where
  decode : List Nat → Option Img
  openFile : String → OpenResult
  truetype : String → Nat → Option Font
  defaultFont : Font
  textsize : Font → String → Nat × Nat
  encodePNG : Img → List Nat
  guessExt : String → Option String
  uuid : Nat → String
  host_url : String

/-- Python truthiness of an optional string argument (None and empty string
are falsy). -/
def truthyS : Option String → Bool
  | none => false
  | some s => !(s == "")

/-- PIL Image.alpha_composite with a dest position; PIL raises ValueError
when the destination coordinates are negative. -/
def alphaComposite (dst src : Img) (x y : Int) : Except PyErr Img :=
  if x < 0 ∨ y < 0 then .error .valueError
  else .ok (.composited dst src x y)

/-- load_font from the source: try three font paths in order, fall back to
the built-in default font. -/
def load_font (env : Env) (size : Nat) : Font :=
  match env.truetype "arial.ttf" size with
  | some f => f
  | none =>
    match env.truetype "/System/Library/Fonts/Supplemental/Arial.ttf" size with
    | some f => f
    | none =>
      match env.truetype "/usr/share/fonts/truetype/dejavu/DejaVuSans-Bold.ttf" size with
      | some f => f
      | none => env.defaultFont

/-- The logo block of add_logo_and_text: when logo_path is truthy, open it;
FileNotFoundError is caught and sets logo_path to None; any other exception
propagates.  On success the logo is converted, resized to 10 percent of the
base height (min 40), composited bottom-right with a margin, and the logo x
position is remembered.  Returns the updated image, the possibly reset
logo_path, and logo_left. -/
def logoStep (env : Env) (img1 : Img) (logo_path : Option String) :
    Except PyErr (Img × Option String × Option Int) :=
  if truthyS logo_path then
    match env.openFile (logo_path.getD "") with
    | .notFound => .ok (img1, none, none)
    | .fail e => .error e
    | .opened logo0 =>
      let logo1 := Img.convert "RGBA" logo0
      let new_h := max 40 (img1.height / 10)
      let new_w := new_h * logo1.width / max 1 logo1.height
      let logo2 := Img.resize new_w new_h logo1
      let margin : Nat := max 10 (img1.width / 100)
      let x : Int := (img1.width : Int) - (new_w : Int) - (margin : Int)
      let y : Int := (img1.height : Int) - (new_h : Int) - (margin : Int)
      match alphaComposite img1 (Img.newRGBA new_w new_h 0 0 0 0) (x + 2) (y + 2) with
      | .error e => .error e
      | .ok imgA =>
        match alphaComposite imgA logo2 x y with
        | .error e => .error e
        | .ok imgB => .ok (imgB, logo_path, some x)
  else .ok (img1, logo_path, none)

/-- The phone-number block of add_logo_and_text: measure the text, place it
next to the logo when a logo was placed (clamped at the left margin) or at
the bottom-left margin otherwise, composite a translucent background and
draw the outlined text. -/
def phoneStep (env : Env) (st : Img × Option String × Option Int) (phone : Option String) :
    Except PyErr Img :=
  if truthyS phone then
    let img2 := st.1
    let pn := phone.getD ""
    let font := load_font env (max 28 (img2.height * 35 / 1000))
    let ts := env.textsize font pn
    let text_w := ts.1
    let text_h := ts.2
    let margin : Nat := max 10 (img2.width / 100)
    let x : Int :=
      if truthyS st.2.1 && (st.2.2).isSome then
        max (margin : Int) ((st.2.2).getD 0 - (text_w : Int) - (margin : Int))
      else (margin : Int)
    let y : Int := (img2.height : Int) - (text_h : Int) - (margin : Int)
    let pad : Nat := text_h * 35 / 100
    let bg := Img.newRGBA (text_w + 2 * pad) (text_h + 2 * pad) 0 0 0 120
    match alphaComposite img2 bg (x - (pad : Int)) (y - (pad : Int)) with
    | .error e => .error e
    | .ok imgC => .ok (Img.withText imgC x y pn font 2)
  else .ok st.1

/-- The body of the try block of add_logo_and_text: decode the input bytes,
convert to RGBA, run the logo and phone blocks, flatten to RGB and re-encode
as PNG.  Every Python exception inside the try block is an .error here. -/
def compositeBody (env : Env) (image_data : List Nat)
    (logo_path phone : Option String) : Except PyErr (List Nat) :=
  match env.decode image_data with
  | none => .error .decodeError
  | some img0 =>
    match logoStep env (Img.convert "RGBA" img0) logo_path with
    | .error e => .error e
    | .ok st =>
      match phoneStep env st phone with
      | .error e => .error e
      | .ok img3 => .ok (env.encodePNG (Img.convert "RGB" img3))

/-- add_logo_and_text from the source: the whole body is wrapped in
try-except Exception, and on any exception the original bytes are returned. -/
def add_logo_and_text (env : Env) (image_data : List Nat)
    (logo_path phone : Option String) : List Nat :=
  match compositeBody env image_data logo_path phone with
  | .ok out => out
  | .error _ => image_data

/-- Python whitespace for str.strip() (ASCII fragment; the claims under study
are insensitive to the non-ASCII whitespace Python also strips). -/
def isPySpace (c : Char) : Bool :=
  c == ' ' || c == '\t' || c == '\n' || c.toNat == 13 || c.toNat == 11 || c.toNat == 12

/-- A character matched by the regex class [a-z0-9]. -/
def isLowerAlnum (c : Char) : Bool :=
  ('a' ≤ c && c ≤ 'z') || ('0' ≤ c && c ≤ '9')

/-- A hyphen. -/
def isHyp (c : Char) : Bool := c == '-'

/-- Strip matching characters from the end of a list (the right half of
Python str.strip).  Returns a prefix of the input. -/
def rstripP (p : Char → Bool) : List Char → List Char
  | [] => []
  | c :: cs =>
    match rstripP p cs with
    | [] => if p c then [] else [c]
    | r => c :: r

/-- Python str.strip(chars): drop matching characters from both ends. -/
def stripP (p : Char → Bool) (l : List Char) : List Char :=
  rstripP p (l.dropWhile p)

/-- First regex of slugify: replace each maximal run of characters outside
[a-z0-9] by a single hyphen.  The Boolean state records whether we are
inside such a run. -/
def sub1Go : List Char → Bool → List Char
  | [], _ => []
  | c :: cs, inRun =>
    if isLowerAlnum c then c :: sub1Go cs false
    else if inRun then sub1Go cs true
    else '-' :: sub1Go cs true

/-- Second regex of slugify: collapse each run of two or more hyphens to a
single hyphen.  The Boolean state records whether the previous character
was a hyphen. -/
def sub2Go : List Char → Bool → List Char
  | [], _ => []
  | c :: cs, prevH =>
    if c == '-' then
      if prevH then sub2Go cs true else '-' :: sub2Go cs true
    else c :: sub2Go cs false

/-- slugify before the final truncation: strip, lower, both regex
substitutions, strip hyphens. -/
def slugNormalize (l : List Char) : List Char :=
  stripP isHyp (sub2Go (sub1Go ((stripP isPySpace l).map Char.toLower) false) false)

/-- slugify from the source (character-list level), with max_len = 40 as at
every call site: normalize, truncate to 40 characters, and fall back to the
literal "prompt" when the result is empty. -/
def slugifyL (l : List Char) : List Char :=
  let t := (slugNormalize l).take 40
  if t = [] then "prompt".data else t

/-- slugify on strings. -/
def slugifyStr (s : String) : String := String.mk (slugifyL s.data)

/-- No two consecutive hyphens anywhere in the list. -/
def noDH : List Char → Bool
  | [] => true
  | [_] => true
  | a :: b :: t => !(a == '-' && b == '-') && noDH (b :: t)

/-- The conjunction of properties claim C3 asserts of every slugify output:
non-empty, only characters from [a-z0-9-] (hence lower-case), no double
hyphen, no leading hyphen, no trailing hyphen, length at most 40. -/
def slugClaimOK (l : List Char) : Bool :=
  !(l.isEmpty) && l.all (fun c => isLowerAlnum c || isHyp c) && noDH l
    && !(l.head? == some '-') && !(l.getLast? == some '-') && decide (l.length ≤ 40)

/-- An inline binary payload of a provider response (google.genai types.Blob):
raw bytes plus a declared media type.  A missing or empty data field is falsy
in the Python checks, modelled as the empty list. -/
structure Blob where
  data : List Nat
  mime_type : Option String
deriving DecidableEq

/-- A part of a provider response (google.genai types.Part).  The pydantic
model always has the inline_data attribute; its value may be None. -/
structure GPart where
  inline_data : Option Blob
deriving DecidableEq

/-- The content of a candidate; parts may be None in the SDK. -/
structure Content where
  parts : Option (List GPart)
deriving DecidableEq

/-- A response candidate; content may be None in the SDK. -/
structure Candidate where
  content : Option Content
deriving DecidableEq

/-- A provider response (also the shape of one stream chunk). -/
structure Response where
  candidates : List Candidate
deriving DecidableEq

/-- The part loop of api.py generate_image over response.candidates[0].content.parts:
hasattr(part, inline_data) is always true on the pydantic Part, so when
inline_data is None the expression part.inline_data.data raises
AttributeError; a blob with falsy (empty) data is skipped; the first blob
with non-empty data is returned. -/
def processParts : List GPart → Except PyErr (Option Blob)
  | [] => .ok none
  | p :: ps =>
    match p.inline_data with
    | none => .error .attrNoneData
    | some b => if b.data.isEmpty then processParts ps else .ok (some b)

/-- response.candidates[0].content.parts in api.py generate_image: an empty
(or missing) candidate list raises IndexError, a None content raises
AttributeError and None parts raises TypeError when iterated. -/
def processResponse (r : Response) : Except PyErr (Option Blob) :=
  match r.candidates with
  | [] => .error .indexError
  | c :: _ =>
    match c.content with
    | none => .error .attrNoneParts
    | some ct =>
      match ct.parts with
      | none => .error .typeError
      | some ps => processParts ps

/-- The dictionary api.py generate_image returns; absent keys are none. -/
structure GenResult where
  success : Bool
  image_path : Option String
  image_url : Option String
  error : Option String
deriving DecidableEq

/-- A record of one file written to disk: the path, the raw provider payload
it came from, and the bytes actually written (after optional compositing). -/
structure SaveRec where
  path : String
  payload : List Nat
  written : List Nat
deriving DecidableEq

/-- os.path.join for the shapes occurring in this code base (relative
second component). -/
def pathJoin (dir name : String) : String :=
  if dir = "" then name
  else if dir.data.getLast? = some '/' then dir ++ name
  else dir ++ "/" ++ name

/-- Python str.rstrip(c) at the string level. -/
def rstripStr (c : Char) (s : String) : String :=
  String.mk (rstripP (fun d => d == c) s.data)

/-- The parameters of api.py generate_image that matter to its behaviour. -/
structure ApiParams where
  logo_path : Option String
  phone_number : Option String
  out_dir : String
deriving DecidableEq

/-- save_image from api.py: build outputs/image_{8-hex-uuid}.png, composite
the logo and phone number onto the payload when either is given, write the
file, and return its path. -/
def save_image (env : Env) (data : List Nat) (ps : ApiParams) : String × List Nat :=
  let name := "image_" ++ env.uuid 0 ++ ".png"
  let path := pathJoin ps.out_dir name
  let written :=
    if truthyS ps.logo_path || truthyS ps.phone_number then
      add_logo_and_text env data ps.logo_path ps.phone_number
    else data
  (path, written)

/-- One iteration of the try block of api.py generate_image: call the
provider, extract the first image payload, save it and build the result
dictionary.  Any exception from the call or the extraction is the .error
case, which the retry loop catches. -/
def apiAttempt (env : Env) (ps : ApiParams) (provider : Nat → Except PyErr Response)
    (attempt : Nat) : Except PyErr (GenResult × List SaveRec) :=
  match provider attempt with
  | .error e => .error e
  | .ok resp =>
    match processResponse resp with
    | .error e => .error e
    | .ok none =>
      .ok ({ success := false, image_path := none, image_url := none,
             error := some "No image generated in response" }, [])
    | .ok (some b) =>
      let pw := save_image env b.data ps
      let url := rstripStr '/' env.host_url ++ "/" ++ pw.1
      .ok ({ success := true, image_path := some pw.1, image_url := some url,
             error := none },
           [{ path := pw.1, payload := b.data, written := pw.2 }])

/-- The observable outcome of one run of api.py generate_image: the returned
dictionary, the files written, and the backoff delays slept (in order). -/
structure ApiRun where
  result : GenResult
  saves : List SaveRec
  delays : List Nat
deriving DecidableEq

/-- The while-True retry loop of api.py generate_image.  attempt is the
number of failures so far (the Python variable of the same name before the
increment), rem is the number of retries still allowed; the loop enters the
give-up branch exactly when the incremented attempt exceeds max_retries,
i.e. when rem is zero.  maxRetries only feeds the failure message. -/
def apiLoop (env : Env) (ps : ApiParams) (provider : Nat → Except PyErr Response)
    (maxRetries : Nat) : Nat → Nat → ApiRun
  | attempt, 0 =>
    match apiAttempt env ps provider attempt with
    | .ok rs => { result := rs.1, saves := rs.2, delays := [] }
    | .error e =>
      { result := { success := false, image_path := none, image_url := none,
                    error := some ("Failed after " ++ Nat.repr maxRetries
                      ++ " retries: " ++ e.str) },
        saves := [], delays := [] }
  | attempt, rem + 1 =>
    match apiAttempt env ps provider attempt with
    | .ok rs => { result := rs.1, saves := rs.2, delays := [] }
    | .error _ =>
      let rest := apiLoop env ps provider maxRetries (attempt + 1) rem
      { result := rest.result, saves := rest.saves,
        delays := min 8 (2 ^ (attempt + 1)) :: rest.delays }

/-- generate_image from api.py (service mode): run the retry loop from
attempt 0 with max_retries retries remaining. -/
def generate_image (env : Env) (ps : ApiParams)
    (provider : Nat → Except PyErr Response) (maxRetries : Nat) : ApiRun :=
  apiLoop env ps provider maxRetries 0 maxRetries

/-- The backoff delay sequence min(8, 2 ^ (attempt + 1)), min(8, 2 ^ (attempt + 2)),
... of length n, as slept by both retry loops starting from a given failure
count. -/
def backoffs (attempt : Nat) : Nat → List Nat
  | 0 => []
  | n + 1 => min 8 (2 ^ (attempt + 1)) :: backoffs (attempt + 1) n

/-- guess_extension from test.py: look the media type up in the mimetypes
table (empty string for a missing one), default to ".png" when the table has
no entry, and rewrite the legacy ".jpe" answer to ".jpg". -/
def guess_extension (env : Env) (mime : Option String) : String :=
  match env.guessExt (mime.getD "") with
  | none => ".png"
  | some e => if e = ".jpe" then ".jpg" else e

/-- The image parts one chunk contributes in iter_image_parts_from_stream:
skip chunks without candidates, take candidates[0], skip a None content,
treat None parts as empty, and keep exactly the parts whose inline_data is
present with truthy (non-empty) data.  Incidental text is only printed. -/
def chunkImageParts (ch : Response) : List Blob :=
  match ch.candidates with
  | [] => []
  | c :: _ =>
    match c.content with
    | none => []
    | some ct =>
      (ct.parts.getD []).filterMap fun p =>
        match p.inline_data with
        | none => none
        | some b => if b.data.isEmpty then none else some b

/-- iter_image_parts_from_stream from test.py over the chunks the stream
yielded. -/
def streamImageParts (chunks : List Response) : List Blob :=
  (chunks.map chunkImageParts).flatten

/-- build_contents from the source: a truthy system prompt is merged into a
single user-role message. -/
def build_contents (prompt : String) (system_prompt : Option String) : String :=
  if truthyS system_prompt then
    system_prompt.getD "" ++ "\n\nUser request: " ++ prompt
  else prompt

/-- Python str.strip() on a string. -/
def pyStrip (s : String) : String := String.mk (stripP isPySpace s.data)

/-- Python repr of a prompt string as used in the failure message
(quote-free prompts; escaping is immaterial to the claims). -/
def pyRepr (s : String) : String := "'" ++ s ++ "'"

/-- What one provider stream call yields: the chunks produced before the
iteration finished, and the exception that ended it, if any (covering both a
call that raises immediately, with no chunks, and a mid-stream failure). -/
structure StreamResult where
  chunks : List Response
  err : Option PyErr
deriving DecidableEq

/-- The configuration generate_batch passes to generate_one_prompt.
out_pref is the file_name_prefix argument of the source. -/
structure BatchCfg where
  out_pref : String
  logo_path : Option String
  phone_number : Option String
  out_dir : String
  system_prompt : Option String
deriving DecidableEq

/-- The final outcome generate_one_prompt reports (via prints in the
source): normal completion, the non-fatal no-image case, or exhaustion of
the retry budget. -/
inductive Outcome where
  | completed
  | noImages
  | failed (msg : String)
deriving DecidableEq

/-- The observable behaviour of one generate_one_prompt call: outcome,
files written in order, and backoff delays slept in order. -/
structure OnePromptRun where
  outcome : Outcome
  saves : List SaveRec
  delays : List Nat
deriving DecidableEq

/-- The save of the idx-th image part of one attempt in generate_one_prompt:
the file name is prefix_slug_idx + ext, joined to out_dir when out_dir is
truthy, and save_binary_file composites the logo and phone number onto the
payload when either is given. -/
def mkSaveRec (env : Env) (cfg : BatchCfg) (slug : String) (idx : Nat) (b : Blob) :
    SaveRec :=
  let ext := guess_extension env b.mime_type
  let name := cfg.out_pref ++ "_" ++ slug ++ "_" ++ Nat.repr idx ++ ext
  let path := if cfg.out_dir = "" then name else pathJoin cfg.out_dir name
  let written :=
    if truthyS cfg.logo_path || truthyS cfg.phone_number then
      add_logo_and_text env b.data cfg.logo_path cfg.phone_number
    else b.data
  { path := path, payload := b.data, written := written }

/-- One iteration of the try block of generate_one_prompt: stream the
response, save every yielded image part under its index, and report the
stream terminating exception, if any. -/
def onePromptAttempt (env : Env) (provider : String → Nat → StreamResult)
    (cfg : BatchCfg) (prompt : String) (attempt : Nat) :
    List SaveRec × List Blob × Option PyErr :=
  let sr := provider (build_contents prompt cfg.system_prompt) attempt
  let blobs := streamImageParts sr.chunks
  (blobs.enum.map (fun ib => mkSaveRec env cfg (slugifyStr prompt) ib.1 ib.2),
   blobs, sr.err)

/-- The while-True retry loop of generate_one_prompt in test.py, in the same
shape as apiLoop: attempt counts failures so far, rem is the remaining retry
budget, maxRetries feeds the failure message. -/
def onePromptLoop (env : Env) (provider : String → Nat → StreamResult)
    (cfg : BatchCfg) (prompt : String) (maxRetries : Nat) :
    Nat → Nat → OnePromptRun
  | attempt, 0 =>
    let a := onePromptAttempt env provider cfg prompt attempt
    match a.2.2 with
    | none =>
      { outcome := if a.2.1.length = 0 then .noImages else .completed,
        saves := a.1, delays := [] }
    | some e =>
      { outcome := .failed ("Failed for prompt after " ++ Nat.repr maxRetries
          ++ " retries: " ++ pyRepr prompt ++ "\n" ++ e.str),
        saves := a.1, delays := [] }
  | attempt, rem + 1 =>
    let a := onePromptAttempt env provider cfg prompt attempt
    match a.2.2 with
    | none =>
      { outcome := if a.2.1.length = 0 then .noImages else .completed,
        saves := a.1, delays := [] }
    | some _ =>
      let rest := onePromptLoop env provider cfg prompt maxRetries (attempt + 1) rem
      { outcome := rest.outcome, saves := a.1 ++ rest.saves,
        delays := min 8 (2 ^ (attempt + 1)) :: rest.delays }

/-- generate_one_prompt from test.py: the retry loop from attempt 0 with
max_retries retries remaining. -/
def generate_one_prompt (env : Env) (provider : String → Nat → StreamResult)
    (cfg : BatchCfg) (prompt : String) (maxRetries : Nat) : OnePromptRun :=
  onePromptLoop env provider cfg prompt maxRetries 0 maxRetries

/-- generate_batch from test.py: skip falsy or blank prompts, and run
generate_one_prompt sequentially on each stripped prompt with the default
max_retries of 3.  The result pairs each processed prompt with its run. -/
def generate_batch (env : Env) (provider : String → Nat → StreamResult)
    (cfg : BatchCfg) (prompts : List String) : List (String × OnePromptRun) :=
  prompts.filterMap fun p =>
    if pyStrip p = "" then none
    else some (pyStrip p, generate_one_prompt env provider cfg (pyStrip p) 3)

/-- A chat message of the OpenAI endpoints. -/
structure ChatMsg where
  role : String
  content : String
deriving DecidableEq

/-- The observable behaviour of one POST /chat call in src/openai/api.py:
the chat_log after the call, the JSON response and error fields, and the
message list that was passed to the provider. -/
structure ChatOut where
  chat_log : List ChatMsg
  response : Option String
  error : Option String
  sentToProvider : List ChatMsg
deriving DecidableEq

/-- The /chat endpoint of src/openai/api.py: append the user message to the
shared chat_log, call the provider on the updated log; on success append the
assistant reply and return it, on any exception return an error result and
leave the log as it was after the user append. -/
def chatEndpoint (provider : List ChatMsg → Except PyErr String)
    (log : List ChatMsg) (message : String) : ChatOut :=
  let log1 := log ++ [{ role := "user", content := message }]
  match provider log1 with
  | .ok bot =>
    { chat_log := log1 ++ [{ role := "assistant", content := bot }],
      response := some bot, error := none, sentToProvider := log1 }
  | .error e =>
    { chat_log := log1, response := none, error := some e.str,
      sentToProvider := log1 }

/-- The JSON result of the POST /image endpoint of src/openai/api.py. -/
structure ImgOut where
  image_url : Option String
  error : Option String
deriving DecidableEq

/-- The /image endpoint of src/openai/api.py.  It makes one provider call
on the decorated prompt (the call sequence is indexed to make the absence of
retries expressible).  The module name openai is rebound at line 11 to the
OpenAI client instance, which has no AuthenticationError attribute, so when
any exception arrives from the provider, evaluating the clause
except openai.AuthenticationError itself raises AttributeError; an exception
raised while matching an except clause propagates out of the try statement
and is not caught by the later except Exception clause.  The endpoint
therefore either returns the image URL or raises AttributeError to the
framework; neither of the two literal error dictionaries is reachable. -/
def create_image (provider : Nat → String → Except PyErr String)
    (user_input : String) : Except PyErr ImgOut :=
  match provider 0 ("A high-quality, detailed, and photorealistic image of: "
      ++ user_input) with
  | .ok url => .ok { image_url := some url, error := none }
  | .error _ => .error .attrNoAuth

/-- A concrete environment for witnesses: decoding succeeds on non-empty
bytes, no logo file exists, no truetype font loads, the mimetypes table
knows image/png only. -/
def testEnv : Env where
  decode := fun bs => if bs.isEmpty then none else some (.base 0 1000 1000)
  openFile := fun _ => .notFound
  truetype := fun _ _ => none
  defaultFont := 0
  textsize := fun _ _ => (50, 20)
  encodePNG := fun _ => [137, 80, 78, 71]
  guessExt := fun m => if m = "image/png" then some ".png" else none
  uuid := fun _ => "abcd1234"
  host_url := "http://localhost:8080/"

/-- An environment whose base-image decode always fails. -/
def envDecodeFail : Env := { testEnv with decode := fun _ => none }

/-- Plain service parameters: no logo, no phone number. -/
def psPlain : ApiParams where
  logo_path := none
  phone_number := none
  out_dir := "outputs"

/-- A provider that fails every call with an authentication error. -/
def authProvider : Nat → Except PyErr Response :=
  fun _ => .error (.provider true "Incorrect API key provided")

/-- A provider that fails every call with a transient error. -/
def failProvider : Nat → Except PyErr Response :=
  fun _ => .error (.provider false "boom")

/-- The payload blob used by the concrete fixtures. -/
def blob7 : Blob where
  data := [7, 7]
  mime_type := some "image/png"

/-- A text part: inline_data is None. -/
def textPart : GPart where
  inline_data := none

/-- A response built from a list of parts (one candidate, present content). -/
def mkResp (ps : List GPart) : Response where
  candidates := [{ content := some { parts := some ps } }]

/-- A response whose first part is a text part (inline_data is None) and
whose second part carries an image payload. -/
def respTextFirst : Response :=
  mkResp [textPart, { inline_data := some blob7 }]

/-- A provider that always returns respTextFirst successfully. -/
def textFirstProvider : Nat → Except PyErr Response := fun _ => .ok respTextFirst

/-- A stream result delivering one chunk with two image payloads and no
error. -/
def streamTwo : StreamResult where
  chunks :=
    [mkResp [{ inline_data := some { data := [1], mime_type := some "image/png" } },
             { inline_data := some { data := [2], mime_type := none } }]]
  err := none

/-- A stream provider that always yields streamTwo. -/
def sProviderTwo : String → Nat → StreamResult := fun _ _ => streamTwo

/-- Plain batch configuration: defaults of the CLI with no logo or phone. -/
def cfgPlain : BatchCfg where
  out_pref := "iphone_campaign"
  logo_path := none
  phone_number := none
  out_dir := "outputs"
  system_prompt := none

/-- 39 letters a followed by a space and a b: slugify maps this to 39 a
characters followed by a hyphen, because the 40-character truncation cuts
directly after the hyphen that replaced the space. -/
def c3CexInput : String := "aaaaaaaaaaaaaaaaaaaaaaaaaaaaaaaaaaaaaaa b"

/-- A part holding a blob with falsy (empty) data: both loops skip it
without error. -/
def emptyBlobPart : GPart where
  inline_data := some { data := [], mime_type := none }

/-- A provider whose response is an empty-data part, then blob7, then one
more payload. -/
def skipProvider : Nat → Except PyErr Response :=
  fun _ => .ok (mkResp [emptyBlobPart, { inline_data := some blob7 },
                        { inline_data := some { data := [9], mime_type := none } }])

/-- A chat provider that always raises. -/
def chatErrProvider : List ChatMsg → Except PyErr String :=
  fun _ => .error (.provider false "rate limit")

/-- An image provider that always raises an authentication error. -/
def imgAuthProvider : Nat → String → Except PyErr String :=
  fun _ _ => .error (.provider true "invalid api key")

/-- The invariant claim C4 asserts of the dictionary generate_image
returns: success with a non-empty image_path and no error, or failure with
no image_path and a non-empty error. -/
def resultOK (r : GenResult) : Prop :=
  (r.success = true ∧ (∃ p, r.image_path = some p ∧ p ≠ "") ∧ r.error = none)
  ∨ (r.success = false ∧ r.image_path = none ∧ ∃ m, r.error = some m ∧ m ≠ "")

theorem str_len_pos {s : String} (h : s ≠ "") : 0 < s.length := by
  cases s with
  | mk d =>
    cases d with
    | nil => exact absurd rfl h
    | cons a t => simp [String.length]

theorem str_ne_of_len_pos {s : String} (h : 0 < s.length) : s ≠ "" := by
  intro he
  subst he
  exact absurd h (by decide)

theorem str_append_ne_right (a : String) {b : String} (h : b ≠ "") : a ++ b ≠ "" := by
  apply str_ne_of_len_pos
  have := str_len_pos h
  rw [String.length_append]
  omega

theorem pathJoin_ne {dir name : String} (h : name ≠ "") : pathJoin dir name ≠ "" := by
  unfold pathJoin
  split
  · exact h
  · split
    · exact str_append_ne_right dir h
    · exact str_append_ne_right (dir ++ "/") h

theorem logoStep_none (env : Env) (i : Img) :
    logoStep env i none = .ok (i, none, none) := rfl

theorem logoStep_missing (env : Env) (i : Img) (p : String) (hp : p ≠ "")
    (hf : env.openFile p = .notFound) :
    logoStep env i (some p) = .ok (i, none, none) := by
  unfold logoStep
  simp [truthyS, hp, hf]

/-- C1: add_logo_and_text never raises to its caller; whenever any exception
occurs inside the try block of the compositor (modelled as compositeBody
returning an error, which covers a decode failure of the base image bytes),
the function catches it and returns the original input bytes unchanged. -/
theorem C1_compositor_never_raises (env : Env) (image_data : List Nat)
    (logo_path phone : Option String) (e : PyErr)
    (h : compositeBody env image_data logo_path phone = .error e) :
    add_logo_and_text env image_data logo_path phone = image_data := by
  unfold add_logo_and_text
  rw [h]

/-- Witness for C1 at a concrete input: an environment whose decode fails,
with input bytes that come back unchanged. -/
theorem C1_witness :
    compositeBody envDecodeFail [0] none none = .error PyErr.decodeError ∧
    add_logo_and_text envDecodeFail [0] none none = [0] :=
  ⟨rfl, C1_compositor_never_raises envDecodeFail [0] none none PyErr.decodeError rfl⟩

/-- C6: when logo_path names a missing file (FileNotFoundError), the
compositor output equals the output of the same call with logo_path = None,
for every base image and label, including identical label placement. -/
theorem C6_missing_logo_no_effect (env : Env) (image_data : List Nat)
    (p : String) (phone : Option String) (hp : p ≠ "")
    (hf : env.openFile p = .notFound) :
    add_logo_and_text env image_data (some p) phone
      = add_logo_and_text env image_data none phone := by
  unfold add_logo_and_text compositeBody
  cases hd : env.decode image_data with
  | none => rfl
  | some img0 =>
    simp only [logoStep_missing env (Img.convert "RGBA" img0) p hp hf,
      logoStep_none env (Img.convert "RGBA" img0)]

/-- Witness for C6 at a concrete input: the logo defaults of the source with
a missing file, a valid base image and a phone label. -/
theorem C6_witness :
    add_logo_and_text testEnv [1, 2] (some "./image.png") (some "0909 123 456")
      = add_logo_and_text testEnv [1, 2] none (some "0909 123 456") :=
  C6_missing_logo_no_effect testEnv [1, 2] "./image.png" (some "0909 123 456")
    (by decide) rfl

/-- C10: the /chat endpoint appends the user message to the shared chat_log
before calling the provider; when the provider raises, the endpoint returns
an error result while the appended user message stays in chat_log, and the
log grows on every call, failed or not. -/
theorem C10_chat_log_grows (provider : List ChatMsg → Except PyErr String)
    (log : List ChatMsg) (message : String) :
    (chatEndpoint provider log message).sentToProvider
        = log ++ [{ role := "user", content := message }]
  ∧ (∀ e, provider (log ++ [{ role := "user", content := message }]) = .error e →
      (chatEndpoint provider log message).error = some e.str
      ∧ (chatEndpoint provider log message).chat_log
          = log ++ [{ role := "user", content := message }])
  ∧ log.length < (chatEndpoint provider log message).chat_log.length := by
  cases hp : provider (log ++ [{ role := "user", content := message }]) with
  | ok bot =>
    refine ⟨by simp [chatEndpoint, hp], ?_, by simp [chatEndpoint, hp]⟩
    intro e he
    exact absurd he (by simp)
  | error e =>
    refine ⟨by simp [chatEndpoint, hp], ?_, by simp [chatEndpoint, hp]⟩
    intro e2 he
    cases he
    exact ⟨by simp [chatEndpoint, hp], by simp [chatEndpoint, hp]⟩

/-- Witness for C10 at a concrete input: a provider that raises, an initial
system log and a user message. -/
theorem C10_witness :
    (chatEndpoint chatErrProvider [{ role := "system", content := "s" }] "hi").error
        = some (PyErr.provider false "rate limit").str
    ∧ (chatEndpoint chatErrProvider [{ role := "system", content := "s" }] "hi").chat_log
        = [{ role := "system", content := "s" }, { role := "user", content := "hi" }] :=
  (C10_chat_log_grows chatErrProvider [{ role := "system", content := "s" }] "hi").2.1
    (PyErr.provider false "rate limit") rfl

theorem str_append_ne_left {a : String} (b : String) (h : a ≠ "") : a ++ b ≠ "" := by
  apply str_ne_of_len_pos
  have := str_len_pos h
  rw [String.length_append]
  omega

theorem apiAttempt_ok_inv {env : Env} {ps : ApiParams}
    {provider : Nat → Except PyErr Response} {i : Nat} {r : GenResult} {s : List SaveRec}
    (h : apiAttempt env ps provider i = .ok (r, s)) : resultOK r := by
  cases hp : provider i with
  | error e => simp [apiAttempt, hp] at h
  | ok resp =>
    cases hq : processResponse resp with
    | error e => simp [apiAttempt, hp, hq] at h
    | ok ob =>
      cases ob with
      | none =>
        simp only [apiAttempt, hp, hq, Except.ok.injEq, Prod.mk.injEq] at h
        rw [← h.1]
        right
        exact ⟨rfl, rfl, "No image generated in response", rfl, by decide⟩
      | some b =>
        simp only [apiAttempt, save_image, hp, hq, Except.ok.injEq, Prod.mk.injEq] at h
        rw [← h.1]
        left
        refine ⟨rfl, ⟨pathJoin ps.out_dir ("image_" ++ env.uuid 0 ++ ".png"), rfl, ?_⟩, rfl⟩
        exact pathJoin_ne (str_append_ne_right ("image_" ++ env.uuid 0) (by decide))

theorem apiLoop_inv (env : Env) (ps : ApiParams)
    (provider : Nat → Except PyErr Response) (mr : Nat) :
    ∀ rem attempt, resultOK (apiLoop env ps provider mr attempt rem).result := by
  intro rem
  induction rem with
  | zero =>
    intro attempt
    cases h : apiAttempt env ps provider attempt with
    | ok rs =>
      cases rs with
      | mk r s =>
        simp only [apiLoop, h]
        exact apiAttempt_ok_inv h
    | error e =>
      simp only [apiLoop, h]
      right
      refine ⟨rfl, rfl,
        "Failed after " ++ Nat.repr mr ++ " retries: " ++ e.str, rfl, ?_⟩
      exact str_append_ne_left _ (str_append_ne_left _ (str_append_ne_left _ (by decide)))
  | succ rem ih =>
    intro attempt
    cases h : apiAttempt env ps provider attempt with
    | ok rs =>
      cases rs with
      | mk r s =>
        simp only [apiLoop, h]
        exact apiAttempt_ok_inv h
    | error e =>
      simp only [apiLoop, h]
      exact ih (attempt + 1)

/-- C4: every dictionary the service-mode generate_image returns is either a
success carrying a non-empty image_path and no error field, or a failure
carrying a non-empty error and no image_path — never both, never neither. -/
theorem C4_result_invariant (env : Env) (ps : ApiParams)
    (provider : Nat → Except PyErr Response) (maxRetries : Nat) :
    resultOK (generate_image env ps provider maxRetries).result :=
  apiLoop_inv env ps provider maxRetries maxRetries 0

theorem apiLoop_delays_spec (env : Env) (ps : ApiParams)
    (provider : Nat → Except PyErr Response) (mr : Nat) :
    ∀ rem attempt, ∃ n, n ≤ rem ∧
      (apiLoop env ps provider mr attempt rem).delays = backoffs attempt n := by
  intro rem
  induction rem with
  | zero =>
    intro attempt
    refine ⟨0, le_refl 0, ?_⟩
    cases h : apiAttempt env ps provider attempt <;> simp [apiLoop, h, backoffs]
  | succ rem ih =>
    intro attempt
    cases h : apiAttempt env ps provider attempt with
    | ok rs => exact ⟨0, Nat.zero_le _, by simp [apiLoop, h, backoffs]⟩
    | error e =>
      obtain ⟨n, hn, hd⟩ := ih (attempt + 1)
      refine ⟨n + 1, by omega, ?_⟩
      simp [apiLoop, h, backoffs, hd]

theorem backoffs_length (attempt n : Nat) : (backoffs attempt n).length = n := by
  induction n generalizing attempt with
  | zero => rfl
  | succ n ih => simp [backoffs, ih]

theorem backoffs_getElem (attempt n i : Nat) (h : i < n) :
    (backoffs attempt n)[i]? = some (min 8 (2 ^ (attempt + i + 1))) := by
  induction n generalizing attempt i with
  | zero => omega
  | succ n ih =>
    cases i with
    | zero => simp [backoffs]
    | succ i =>
      simp only [backoffs, List.getElem?_cons_succ]
      rw [ih (attempt + 1) i (by omega)]
      have : attempt + 1 + i + 1 = attempt + (i + 1) + 1 := by omega
      rw [this]

theorem backoffs_mem_le (attempt n : Nat) {x : Nat} (h : x ∈ backoffs attempt n) :
    x ≤ 8 := by
  induction n generalizing attempt with
  | zero => simp [backoffs] at h
  | succ n ih =>
    simp only [backoffs, List.mem_cons] at h
    rcases h with h | h
    · rw [h]; exact min_le_left 8 _
    · exact ih (attempt + 1) h

theorem apiLoop_allfail (env : Env) (ps : ApiParams)
    (provider : Nat → Except PyErr Response) (mr : Nat) (es : Nat → PyErr) :
    ∀ rem attempt,
      (∀ i, attempt ≤ i → i ≤ attempt + rem →
        apiAttempt env ps provider i = .error (es i)) →
      (apiLoop env ps provider mr attempt rem).result
          = { success := false, image_path := none, image_url := none,
              error := some ("Failed after " ++ Nat.repr mr ++ " retries: "
                ++ (es (attempt + rem)).str) }
      ∧ (apiLoop env ps provider mr attempt rem).delays.length = rem := by
  intro rem
  induction rem with
  | zero =>
    intro attempt h
    have h0 := h attempt (le_refl _) (by omega)
    simp [apiLoop, h0]
  | succ rem ih =>
    intro attempt h
    have h0 := h attempt (le_refl _) (by omega)
    have hrest := ih (attempt + 1) (fun i h1 h2 => h i (by omega) (by omega))
    constructor
    · simp only [apiLoop, h0]
      rw [hrest.1]
      have : attempt + 1 + rem = attempt + (rem + 1) := by omega
      rw [this]
    · simp only [apiLoop, h0, List.length_cons]
      rw [hrest.2]

/-- C2: for every prompt, the api.py retry loop sleeps at most max_retries
backoff delays after the initial failure; the k-th delay (k from 1, i.e.
index k-1) equals min(8, 2 ^ k), so the delay sequence 2, 4, 8, 8, ... is
non-decreasing and capped at 8; and when every attempt fails, the returned
failure result's message extends the last error's message. -/
theorem C2_retry_backoff (env : Env) (ps : ApiParams)
    (provider : Nat → Except PyErr Response) (maxRetries : Nat) :
    (generate_image env ps provider maxRetries).delays.length ≤ maxRetries
  ∧ (∀ i x, (generate_image env ps provider maxRetries).delays[i]? = some x →
      x = min 8 (2 ^ (i + 1)))
  ∧ (∀ i j xi xj : Nat, i ≤ j →
      (generate_image env ps provider maxRetries).delays[i]? = some xi →
      (generate_image env ps provider maxRetries).delays[j]? = some xj →
      xi ≤ xj)
  ∧ (∀ x ∈ (generate_image env ps provider maxRetries).delays, x ≤ 8)
  ∧ (∀ es : Nat → PyErr,
      (∀ i, i ≤ maxRetries → apiAttempt env ps provider i = .error (es i)) →
      (generate_image env ps provider maxRetries).result.success = false
      ∧ (generate_image env ps provider maxRetries).result.error
          = some ("Failed after " ++ Nat.repr maxRetries ++ " retries: "
              ++ (es maxRetries).str)
      ∧ (generate_image env ps provider maxRetries).delays.length = maxRetries) := by
  obtain ⟨n, hn, hd⟩ := apiLoop_delays_spec env ps provider maxRetries maxRetries 0
  have hgen : (generate_image env ps provider maxRetries).delays = backoffs 0 n := hd
  have hget : ∀ i x,
      (generate_image env ps provider maxRetries).delays[i]? = some x →
      x = min 8 (2 ^ (i + 1)) := by
    intro i x hx
    rw [hgen] at hx
    have hi : i < n := by
      by_contra hge
      rw [List.getElem?_eq_none (by rw [backoffs_length]; omega)] at hx
      cases hx
    have h2 := backoffs_getElem 0 n i hi
    rw [hx] at h2
    have h3 : x = min 8 (2 ^ (0 + i + 1)) := by
      cases h2
      rfl
    rw [h3]
    have : 0 + i + 1 = i + 1 := by omega
    rw [this]
  refine ⟨?_, hget, ?_, ?_, ?_⟩
  · rw [hgen, backoffs_length]
    exact hn
  · intro i j xi xj hij hxi hxj
    rw [hget i xi hxi, hget j xj hxj]
    have hpow : 2 ^ (i + 1) ≤ 2 ^ (j + 1) := Nat.pow_le_pow_right (by omega) (by omega)
    omega
  · intro x hx
    rw [hgen] at hx
    exact backoffs_mem_le 0 n hx
  · intro es hall
    have h2 := apiLoop_allfail env ps provider maxRetries es maxRetries 0
      (fun i _ h2 => hall i (by omega))
    have h1 := h2.1
    rw [Nat.zero_add] at h1
    refine ⟨?_, ?_, h2.2⟩
    · show (apiLoop env ps provider maxRetries 0 maxRetries).result.success = false
      rw [h1]
    · show (apiLoop env ps provider maxRetries 0 maxRetries).result.error = _
      rw [h1]

/-- Witness for C2 at a concrete input: a provider that always fails with a
transient error and max_retries = 3. -/
theorem C2_witness :
    (generate_image testEnv psPlain failProvider 3).delays.length ≤ 3
  ∧ (generate_image testEnv psPlain failProvider 3).result.error
      = some ("Failed after " ++ Nat.repr 3 ++ " retries: "
          ++ (PyErr.provider false "boom").str) := by
  have h := C2_retry_backoff testEnv psPlain failProvider 3
  exact ⟨h.1, (h.2.2.2.2 (fun _ => PyErr.provider false "boom") (fun i _ => rfl)).2.1⟩

/-- Counterexample for C5: a provider failing with an authentication error
is retried by the Gemini adapter exactly like any other exception — the run
sleeps the delays 2, 4, 8 before surfacing the failure, contradicting
"surfaced immediately without any retry attempt" for this entry point. -/
theorem C5_counterexample :
    PyErr.isAuth (PyErr.provider true "Incorrect API key provided") = true
  ∧ (generate_image testEnv psPlain authProvider 3).delays = [2, 4, 8]
  ∧ (generate_image testEnv psPlain authProvider 3).delays ≠ []
  ∧ (generate_image testEnv psPlain authProvider 3).result.success = false :=
  ⟨rfl, rfl, by decide, rfl⟩

/-- C5 (amended): no entry point surfaces an authentication error as the
claim describes.  The Gemini adapter retry loop treats an authentication
error like any other exception, sleeping max_retries backoff delays before
returning a failure.  The OpenAI image endpoint makes a single provider call
without retry (its result depends only on call 0), but its auth
special-case is unreachable: on every provider exception — authentication
errors included — evaluating except openai.AuthenticationError on the
rebound client instance raises AttributeError, which propagates past the
generic handler, so the endpoint raises instead of returning either error
result. -/
theorem C5_auth_error_handling :
    (∀ (provider : Nat → String → Except PyErr String) (u : String) (e : PyErr),
        provider 0 ("A high-quality, detailed, and photorealistic image of: " ++ u)
            = .error e →
        create_image provider u = .error .attrNoAuth)
  ∧ (∀ (p q : Nat → String → Except PyErr String) (u : String),
        (∀ s, p 0 s = q 0 s) → create_image p u = create_image q u)
  ∧ (∀ (env : Env) (ps : ApiParams) (mr : Nat) (msg : String),
        (generate_image env ps (fun _ => .error (.provider true msg)) mr).delays.length
            = mr
      ∧ (generate_image env ps (fun _ => .error (.provider true msg)) mr).result.success
            = false) := by
  refine ⟨?_, ?_, ?_⟩
  · intro provider u e hp
    simp [create_image, hp]
  · intro p q u h
    unfold create_image
    rw [h]
  · intro env ps mr msg
    have h2 := apiLoop_allfail env ps (fun _ => .error (.provider true msg)) mr
      (fun _ => .provider true msg) mr 0 (fun i _ _ => rfl)
    refine ⟨h2.2, ?_⟩
    show (apiLoop env ps (fun _ => .error (.provider true msg)) mr 0 mr).result.success
        = false
    rw [h2.1]

/-- Witness for the amended C5 at concrete inputs: an always-auth-failing
image provider makes the endpoint raise AttributeError, and the Gemini loop
still sleeps its full retry budget. -/
theorem C5_witness :
    create_image imgAuthProvider "a cat" = .error .attrNoAuth
  ∧ (generate_image testEnv psPlain (fun _ => .error (.provider true "bad")) 2).delays.length
      = 2 :=
  ⟨C5_auth_error_handling.1 imgAuthProvider "a cat" (PyErr.provider true "invalid api key")
      rfl,
   (C5_auth_error_handling.2.2 testEnv psPlain 2 "bad").1⟩

theorem processParts_skips (pre post : List GPart) (b : Blob)
    (hpre : ∀ p ∈ pre, ∃ bb, p.inline_data = some bb ∧ bb.data = [])
    (hb : b.data ≠ []) :
    processParts (pre ++ { inline_data := some b } :: post) = .ok (some b) := by
  induction pre with
  | nil =>
    show processParts ({ inline_data := some b } :: post) = .ok (some b)
    simp [processParts, List.isEmpty_iff, hb]
  | cons p pre ih =>
    obtain ⟨bb, hpb, hbb⟩ := hpre p (by simp)
    have hrest := ih (fun q hq => hpre q (by simp [hq]))
    show processParts (p :: (pre ++ { inline_data := some b } :: post)) = .ok (some b)
    simpa [processParts, hpb, hbb] using hrest

/-- Counterexample for C9: a response whose first part is a text part
(inline_data is None) followed by an image payload.  It contains an image
payload, yet generate_image saves nothing and returns a failure, because
part.inline_data.data raises AttributeError before the payload is reached
and the whole call is retried until the budget is exhausted. -/
theorem C9_counterexample :
    chunkImageParts respTextFirst = [blob7]
  ∧ (generate_image testEnv psPlain textFirstProvider 3).result.success = false
  ∧ (generate_image testEnv psPlain textFirstProvider 3).saves = [] :=
  ⟨rfl, rfl, rfl⟩

/-- C9 (amended): when every part preceding the first non-empty image
payload carries an (empty-data) inline_data field, the service-mode
generate_image saves and returns exactly that first payload and never saves
any later payload of the response; a preceding part without inline_data
instead raises and the attempt is retried. -/
theorem C9_first_payload (env : Env) (ps : ApiParams)
    (provider : Nat → Except PyErr Response) (mr : Nat)
    (pre post : List GPart) (b : Blob)
    (hpre : ∀ p ∈ pre, ∃ bb, p.inline_data = some bb ∧ bb.data = [])
    (hb : b.data ≠ [])
    (h0 : provider 0 = .ok (mkResp (pre ++ { inline_data := some b } :: post))) :
    ∃ s : SaveRec,
      (generate_image env ps provider mr).saves = [s]
      ∧ s.payload = b.data
      ∧ (generate_image env ps provider mr).result.success = true
      ∧ (generate_image env ps provider mr).result.image_path = some s.path
      ∧ (generate_image env ps provider mr).delays = [] := by
  have hproc : processResponse (mkResp (pre ++ { inline_data := some b } :: post))
      = .ok (some b) := by
    simp only [mkResp, processResponse, Option.getD]
    exact processParts_skips pre post b hpre hb
  have hatt : apiAttempt env ps provider 0
      = .ok ({ success := true, image_path := some (save_image env b.data ps).1,
               image_url := some (rstripStr '/' env.host_url ++ "/"
                 ++ (save_image env b.data ps).1),
               error := none },
             [{ path := (save_image env b.data ps).1, payload := b.data,
                written := (save_image env b.data ps).2 }]) := by
    simp only [apiAttempt, h0, hproc]
  refine ⟨{ path := (save_image env b.data ps).1, payload := b.data,
            written := (save_image env b.data ps).2 }, ?_, rfl, ?_, ?_, ?_⟩
  all_goals
    cases mr with
    | zero =>
      show _ = _
      simp only [generate_image, apiLoop, hatt]
    | succ n =>
      show _ = _
      simp only [generate_image, apiLoop, hatt]

/-- Witness for the amended C9 at a concrete input: an empty-data part, then
blob7, then one further payload; only blob7 is saved. -/
theorem C9_witness :
    ∃ s : SaveRec,
      (generate_image testEnv psPlain skipProvider 3).saves = [s]
      ∧ s.payload = blob7.data
      ∧ (generate_image testEnv psPlain skipProvider 3).result.success = true
      ∧ (generate_image testEnv psPlain skipProvider 3).result.image_path = some s.path
      ∧ (generate_image testEnv psPlain skipProvider 3).delays = [] :=
  C9_first_payload testEnv psPlain skipProvider 3 [emptyBlobPart]
    [{ inline_data := some { data := [9], mime_type := none } }] blob7
    (fun p hp => by
      rw [List.mem_singleton] at hp
      exact ⟨{ data := [], mime_type := none }, by rw [hp]; rfl, rfl⟩)
    (by decide) rfl

/-- C7: the batch orchestrator processes exactly the non-blank (after
trimming) prompts, in order and sequentially, pairing each with the run of
generate_one_prompt on the stripped prompt (with the default retry budget
of 3); and since each entry is that prompt's own run, a permanent provider
failure recorded for one prompt never prevents any later prompt's entry
from appearing with its own run. -/
theorem C7_batch_processes_nonblank (env : Env)
    (provider : String → Nat → StreamResult) (cfg : BatchCfg)
    (prompts : List String) :
    generate_batch env provider cfg prompts
      = (prompts.filter fun p => !(pyStrip p == "")).map
          (fun p => (pyStrip p, generate_one_prompt env provider cfg (pyStrip p) 3))
  ∧ ∀ q ∈ prompts, pyStrip q ≠ "" →
      (pyStrip q, generate_one_prompt env provider cfg (pyStrip q) 3)
        ∈ generate_batch env provider cfg prompts := by
  have hmain : generate_batch env provider cfg prompts
      = (prompts.filter fun p => !(pyStrip p == "")).map
          (fun p => (pyStrip p, generate_one_prompt env provider cfg (pyStrip p) 3)) := by
    induction prompts with
    | nil => rfl
    | cons p ps ih =>
      by_cases hp : pyStrip p = ""
      · simp [generate_batch, List.filterMap_cons, List.filter_cons, hp] at ih ⊢
        exact ih
      · simp [generate_batch, List.filterMap_cons, List.filter_cons, hp] at ih ⊢
        exact ih
  refine ⟨hmain, ?_⟩
  intro q hq hne
  rw [hmain]
  refine List.mem_map.2 ⟨q, List.mem_filter.2 ⟨hq, ?_⟩, rfl⟩
  simp [hne]

/-- Witness for C7 at a concrete input: a two-prompt batch where the second
prompt is blank; the stripped first prompt appears with its own run. -/
theorem C7_witness :
    (pyStrip " x ", generate_one_prompt testEnv sProviderTwo cfgPlain (pyStrip " x ") 3)
      ∈ generate_batch testEnv sProviderTwo cfgPlain [" x ", "  "] :=
  (C7_batch_processes_nonblank testEnv sProviderTwo cfgPlain [" x ", "  "]).2
    " x " (by decide) (by decide)

/-- C8: on a successful first attempt, the files generate_one_prompt writes
for a prompt are exactly the stream's image payloads in order, persisted at
out_dir/prefix_slug(prompt)_index + ext with index counting the payloads of
that prompt from 0 and ext derived from the payload's declared media type;
a missing or unrecognized media type defaults the extension to ".png". -/
theorem C8_save_paths (env : Env) (provider : String → Nat → StreamResult)
    (cfg : BatchCfg) (prompt : String) (mr : Nat)
    (hmt : env.guessExt "" = none)
    (hdir : cfg.out_dir ≠ "")
    (hsl : ¬ cfg.out_dir.data.getLast? = some '/')
    (h0 : (provider (build_contents prompt cfg.system_prompt) 0).err = none) :
    (generate_one_prompt env provider cfg prompt mr).saves.map (fun s => s.path)
      = (streamImageParts (provider (build_contents prompt cfg.system_prompt) 0).chunks).enum.map
          (fun ib => cfg.out_dir ++ "/" ++ (cfg.out_pref ++ "_" ++ slugifyStr prompt
              ++ "_" ++ Nat.repr ib.1 ++ guess_extension env ib.2.mime_type))
  ∧ guess_extension env none = ".png"
  ∧ (∀ m : String, env.guessExt m = none → guess_extension env (some m) = ".png") := by
  refine ⟨?_, ?_, ?_⟩
  · have hsaves : (generate_one_prompt env provider cfg prompt mr).saves
        = (streamImageParts (provider (build_contents prompt cfg.system_prompt) 0).chunks).enum.map
            (fun ib => mkSaveRec env cfg (slugifyStr prompt) ib.1 ib.2) := by
      cases mr with
      | zero =>
        show (onePromptLoop env provider cfg prompt 0 0 0).saves = _
        simp only [onePromptLoop, onePromptAttempt, h0]
      | succ n =>
        show (onePromptLoop env provider cfg prompt (n + 1) 0 (n + 1)).saves = _
        simp only [onePromptLoop, onePromptAttempt, h0]
    rw [hsaves, List.map_map]
    apply List.map_congr_left
    intro ib _
    show (mkSaveRec env cfg (slugifyStr prompt) ib.1 ib.2).path = _
    simp only [mkSaveRec, pathJoin, if_neg hdir, if_neg hsl]
  · simp [guess_extension, hmt]
  · intro m hm
    simp [guess_extension, hm]

/-- Witness for C8 at a concrete input: a stream with two payloads, one with
media type image/png and one with no media type; both land in outputs with
the prompt slug and indices 0 and 1, the second with the ".png" default. -/
theorem C8_witness :
    (generate_one_prompt testEnv sProviderTwo cfgPlain "Red shoe" 3).saves.map
        (fun s => s.path)
      = ["outputs/iphone_campaign_red-shoe_0.png",
         "outputs/iphone_campaign_red-shoe_1.png"] := by
  have h := (C8_save_paths testEnv sProviderTwo cfgPlain "Red shoe" 3 rfl (by decide)
    (by decide) rfl).1
  rw [h]
  decide

theorem mem_of_dropWhile {p : Char → Bool} {l : List Char} {c : Char}
    (h : c ∈ l.dropWhile p) : c ∈ l := by
  induction l with
  | nil => simp at h
  | cons a t ih =>
    by_cases hp : p a
    · rw [List.dropWhile_cons, if_pos hp] at h
      exact List.mem_cons_of_mem a (ih h)
    · rw [List.dropWhile_cons, if_neg hp] at h
      exact h

theorem rstripP_isPref (p : Char → Bool) : ∀ l : List Char, ∃ t, rstripP p l ++ t = l := by
  intro l
  induction l with
  | nil => exact ⟨[], rfl⟩
  | cons c cs ih =>
    cases h : rstripP p cs with
    | nil =>
      by_cases hp : p c
      · exact ⟨c :: cs, by simp [rstripP, h, hp]⟩
      · exact ⟨cs, by simp [rstripP, h, hp]⟩
    | cons d ds =>
      obtain ⟨t, ht⟩ := ih
      rw [h] at ht
      refine ⟨t, ?_⟩
      simp only [rstripP, h]
      rw [List.cons_append, ht]

theorem mem_of_rstripP {p : Char → Bool} {l : List Char} {c : Char}
    (h : c ∈ rstripP p l) : c ∈ l := by
  obtain ⟨t, ht⟩ := rstripP_isPref p l
  rw [← ht]
  exact List.mem_append_left t h

theorem sub1Go_chars : ∀ (l : List Char) (b : Bool) (c : Char),
    c ∈ sub1Go l b → isLowerAlnum c = true ∨ c = '-' := by
  intro l
  induction l with
  | nil => intro b c hc; simp [sub1Go] at hc
  | cons a t ih =>
    intro b c hc
    by_cases ha : isLowerAlnum a
    · simp only [sub1Go, if_pos ha] at hc
      rcases List.mem_cons.mp hc with h | h
      · exact Or.inl (h ▸ ha)
      · exact ih false c h
    · cases b with
      | true =>
        simp only [sub1Go, if_neg ha, if_true] at hc
        exact ih true c hc
      | false =>
        simp only [sub1Go, if_neg ha, Bool.false_eq_true, if_false] at hc
        rcases List.mem_cons.mp hc with h | h
        · exact Or.inr h
        · exact ih true c h

theorem sub2Go_mem : ∀ (l : List Char) (b : Bool) (c : Char),
    c ∈ sub2Go l b → c ∈ l := by
  intro l
  induction l with
  | nil => intro b c hc; simp [sub2Go] at hc
  | cons a t ih =>
    intro b c hc
    by_cases ha : a == '-'
    · cases b with
      | true =>
        simp only [sub2Go, if_pos ha, if_true] at hc
        exact List.mem_cons_of_mem a (ih true c hc)
      | false =>
        simp only [sub2Go, if_pos ha, Bool.false_eq_true, if_false] at hc
        rcases List.mem_cons.mp hc with h | h
        · rw [h, show a = '-' from by simpa using ha]
          exact List.mem_cons_self _ _
        · exact List.mem_cons_of_mem a (ih true c h)
    · simp only [sub2Go, if_neg ha] at hc
      rcases List.mem_cons.mp hc with h | h
      · rw [h]; exact List.mem_cons_self a t
      · exact List.mem_cons_of_mem a (ih false c h)

theorem sub2Go_head : ∀ l : List Char, ¬ (sub2Go l true).head? = some '-' := by
  intro l
  induction l with
  | nil => simp [sub2Go]
  | cons a t ih =>
    by_cases ha : a == '-'
    · simpa only [sub2Go, if_pos ha, if_true] using ih
    · simp only [sub2Go, if_neg ha, List.head?_cons]
      intro hcon
      have : a = '-' := by
        cases hcon
        rfl
      rw [this] at ha
      exact ha rfl

theorem noDH_cons {a : Char} {l : List Char} (h : noDH (a :: l) = true) :
    noDH l = true := by
  cases l with
  | nil => rfl
  | cons b t =>
    simp only [noDH, Bool.and_eq_true] at h
    exact h.2

theorem sub2Go_noDH : ∀ (l : List Char) (b : Bool), noDH (sub2Go l b) = true := by
  intro l
  induction l with
  | nil => intro b; rfl
  | cons a t ih =>
    intro b
    by_cases ha : a == '-'
    · cases b with
      | true => simpa only [sub2Go, if_pos ha, if_true] using ih true
      | false =>
        simp only [sub2Go, if_pos ha, Bool.false_eq_true, if_false]
        cases hr : sub2Go t true with
        | nil => rfl
        | cons d ds =>
          have hd : ¬ d = '-' := by
            intro hcon
            apply sub2Go_head t
            rw [hr, hcon]
            rfl
          have hrest : noDH (d :: ds) = true := hr ▸ ih true
          simp only [noDH, Bool.and_eq_true]
          refine ⟨?_, hrest⟩
          simp [hd]
    · simp only [sub2Go, if_neg ha]
      cases hr : sub2Go t false with
      | nil => rfl
      | cons d ds =>
        have hrest : noDH (d :: ds) = true := hr ▸ ih false
        simp only [noDH, Bool.and_eq_true]
        refine ⟨?_, hrest⟩
        simp only [Bool.not_eq_true']
        rw [Bool.and_eq_false_iff]
        exact Or.inl (by simpa using ha)

theorem noDH_append_left : ∀ (l t : List Char), noDH (l ++ t) = true → noDH l = true := by
  intro l t
  induction l with
  | nil => intro _; rfl
  | cons a l2 ih =>
    intro h
    cases l2 with
    | nil => rfl
    | cons b l3 =>
      simp only [List.cons_append, noDH, Bool.and_eq_true] at h ⊢
      exact ⟨h.1, ih (by simpa using h.2)⟩

theorem noDH_dropWhile (p : Char → Bool) : ∀ l : List Char,
    noDH l = true → noDH (l.dropWhile p) = true := by
  intro l
  induction l with
  | nil => intro _; rfl
  | cons a t ih =>
    intro h
    by_cases hp : p a
    · rw [List.dropWhile_cons, if_pos hp]
      exact ih (noDH_cons h)
    · rw [List.dropWhile_cons, if_neg hp]
      exact h

theorem noDH_rstripP (p : Char → Bool) (l : List Char) (h : noDH l = true) :
    noDH (rstripP p l) = true := by
  obtain ⟨t, ht⟩ := rstripP_isPref p l
  exact noDH_append_left (rstripP p l) t (by rw [ht]; exact h)

theorem noDH_take (n : Nat) (l : List Char) (h : noDH l = true) :
    noDH (l.take n) = true :=
  noDH_append_left (l.take n) (l.drop n) (by rw [List.take_append_drop]; exact h)

theorem dropWhile_head_not (p : Char → Bool) : ∀ (l : List Char) (c : Char),
    (l.dropWhile p).head? = some c → p c = false := by
  intro l
  induction l with
  | nil => intro c h; simp at h
  | cons a t ih =>
    intro c h
    by_cases hp : p a
    · rw [List.dropWhile_cons, if_pos hp] at h
      exact ih c h
    · rw [List.dropWhile_cons, if_neg hp, List.head?_cons] at h
      cases h
      simpa using hp

theorem rstripP_head (p : Char → Bool) (l : List Char) (c : Char)
    (h : (rstripP p l).head? = some c) : l.head? = some c := by
  obtain ⟨t, ht⟩ := rstripP_isPref p l
  cases hr : rstripP p l with
  | nil => rw [hr] at h; cases h
  | cons d ds =>
    rw [hr] at h ht
    rw [← ht, List.cons_append, List.head?_cons]
    rw [List.head?_cons] at h
    exact h

theorem rstripP_last (p : Char → Bool) : ∀ (l : List Char) (c : Char),
    (rstripP p l).getLast? = some c → p c = false := by
  intro l
  induction l with
  | nil => intro c h; cases h
  | cons a t ih =>
    intro c h
    cases hr : rstripP p t with
    | nil =>
      by_cases hp : p a
      · rw [show rstripP p (a :: t) = [] from by simp [rstripP, hr, hp]] at h
        cases h
      · rw [show rstripP p (a :: t) = [a] from by simp [rstripP, hr, hp]] at h
        cases h
        simpa using hp
    | cons d ds =>
      rw [show rstripP p (a :: t) = a :: d :: ds from by simp [rstripP, hr]] at h
      rw [List.getLast?_cons_cons] at h
      exact ih c (hr ▸ h)

theorem take_head (n : Nat) (l : List Char) (hn : n ≠ 0) :
    (l.take n).head? = l.head? := by
  cases n with
  | zero => exact absurd rfl hn
  | succ m =>
    cases l with
    | nil => rfl
    | cons a t => rfl

/-- Counterexample for C3: on 39 letters a followed by a space and a b,
slugify returns 39 a characters followed by a hyphen — the 40-character
truncation cuts directly after the hyphen that replaced the space, so the
output ends with a hyphen and the claimed conjunction fails. -/
theorem C3_counterexample : slugClaimOK (slugifyL c3CexInput.data) = false := by decide

/-- C3 (amended): for every input, slugify returns a non-empty string over
the alphabet [a-z0-9-] (hence lower-case) with no two consecutive hyphens,
not starting with a hyphen, of length at most 40, and not ending with a
hyphen whenever its length is below 40 (a trailing hyphen can only arise
from truncation at exactly 40 characters); when normalization yields the
empty string the result is the literal "prompt". -/
theorem C3_slug_properties (l : List Char) :
    slugifyL l ≠ []
  ∧ (∀ c ∈ slugifyL l, isLowerAlnum c = true ∨ c = '-')
  ∧ noDH (slugifyL l) = true
  ∧ (slugifyL l).head? ≠ some '-'
  ∧ (slugifyL l).length ≤ 40
  ∧ ((slugifyL l).length < 40 → (slugifyL l).getLast? ≠ some '-')
  ∧ (slugNormalize l = [] → slugifyL l = "prompt".data) := by
  by_cases he : (slugNormalize l).take 40 = []
  · have hfix : slugifyL l = "prompt".data := by simp [slugifyL, he]
    rw [hfix]
    exact ⟨by decide, by decide, by decide, by decide, by decide,
      fun _ => by decide, fun _ => rfl⟩
  · have hval : slugifyL l = (slugNormalize l).take 40 := by simp [slugifyL, he]
    have hchar : ∀ c ∈ slugNormalize l, isLowerAlnum c = true ∨ c = '-' := by
      intro c hc
      have h1 : c ∈ sub2Go (sub1Go ((stripP isPySpace l).map Char.toLower) false) false :=
        mem_of_dropWhile (mem_of_rstripP hc)
      exact sub1Go_chars _ false c (sub2Go_mem _ false c h1)
    have hnoDH : noDH (slugNormalize l) = true :=
      noDH_rstripP isHyp _ (noDH_dropWhile isHyp _ (sub2Go_noDH _ false))
    have hhead : ¬ (slugNormalize l).head? = some '-' := by
      intro hcon
      have h1 := rstripP_head isHyp _ '-' hcon
      have h2 := dropWhile_head_not isHyp _ '-' h1
      exact absurd h2 (by decide)
    have hlast : ¬ (slugNormalize l).getLast? = some '-' := by
      intro hcon
      have := rstripP_last isHyp _ '-' hcon
      exact absurd this (by decide)
    refine ⟨?_, ?_, ?_, ?_, ?_, ?_, ?_⟩
    · rw [hval]; exact he
    · intro c hc
      rw [hval] at hc
      exact hchar c (List.take_subset 40 _ hc)
    · rw [hval]; exact noDH_take 40 _ hnoDH
    · rw [hval]
      intro hcon
      rw [take_head 40 _ (by decide)] at hcon
      exact hhead hcon
    · rw [hval, List.length_take]
      exact min_le_left _ _
    · rw [hval]
      intro hlen hcon
      have hslen : (slugNormalize l).length < 40 := by
        rw [List.length_take] at hlen
        omega
      rw [List.take_of_length_le (by omega)] at hcon
      exact hlast hcon
    · intro hnorm
      have : (slugNormalize l).take 40 = [] := by rw [hnorm]; rfl
      exact absurd this he

/-- Witness for the amended C3 at a concrete input. -/
theorem C3_witness :
    slugifyL ("Hello World".data) ≠ []
  ∧ (slugifyL ("Hello World".data)).getLast? ≠ some '-' := by
  have h := C3_slug_properties ("Hello World".data)
  exact ⟨h.1, h.2.2.2.2.2.1 (by decide)⟩
